import Mathlib

/-!
Shallow embedding of the HTTP/3 server core of `h3` (`src/h3/src/server.rs`,
`src/h3/src/webtransport/stream.rs`), together with theorems settling the
frozen claims about it.

Conventions:
* Rust `u64` / `usize` values are embedded as `Nat` (no arithmetic here can
  overflow a `u64` for the inputs we quantify over; additions on stream ids
  are plain additions, as the specification describes them).
* Fallible Rust functions returning `Result<T, Error>` become
  `Except Error T`.
* External collaborators that live outside `src/` (the qpack codec, the
  `ConnectionInner` helpers from `connection.rs`, the error and frame
  definitions from `error.rs` / `proto`) are modelled from the
  specification; each such definition carries a doc comment starting with
  `Modelled from the spec:`.
-/

namespace H3

/-- Stream identifiers; transport-assigned (`quic::StreamId`). -/
abbrev StreamId := Nat

/-- Push identifiers (`proto::push::PushId`); the GOAWAY frame of this
codebase carries a `PushId`. -/
abbrev PushId := Nat

/-- Modelled from the spec: the first valid request-stream id
(`StreamId::FIRST_REQUEST`, from `quic.rs` which is not under `src/`). -/
def firstRequest : StreamId := 0

/-- The HTTP/3 error codes used by `server.rs` (`error::Code`, not under
`src/`; the constructors are exactly the codes `server.rs` names). -/
inductive Code where
  | h3NoError
  | h3RequestIncomplete
  | h3FrameUnexpected
  | h3RequestRejected
  | h3MessageError
  | h3SettingsError
  | h3IdError
  deriving DecidableEq, Repr

/-- Error severity (`error::ErrorLevel`). -/
inductive ErrorLevel where
  | connectionError
  | streamError
  deriving DecidableEq, Repr

/-- Modelled from the spec: the error value (`error::Error`, not under
`src/`). The spec (§7) describes three primary kinds — fatal connection
errors carrying code and reason, recoverable stream errors, and a quiet
`Closed` outcome — plus a distinguished header-too-long error carrying both
the offending and the configured sizes (`Error::header_too_big`). -/
inductive Error where
  | closed
  | application (code : Code) (reason : String) (level : ErrorLevel)
  | headerTooBig (actualSize maxSize : Nat)
  deriving DecidableEq, Repr

/-- Modelled from the spec (§6): the recognized wire frame types — header
block, body data, settings, shutdown boundary (GOAWAY), the two push-related
frames, plus the grease probe mentioned in the glossary.  A header block is
abstracted by its decoded field-section size, the quantity the qpack codec
reports (`decode(block, max_size) → fields | HeaderTooLong(actual_size)`). -/
inductive Frame where
  | data (len : Nat)
  | headers (decodedSize : Nat)
  | cancelPush (id : PushId)
  | settings (kvs : List (Nat × Nat))
  | pushPromise
  | goaway (id : PushId)
  | maxPushId (id : PushId)
  | grease
  deriving DecidableEq, Repr

/-- The connection configuration (`server.rs` lines 481–491, defaults lines
547–558). -/
structure Config where
  sendGrease : Bool
  maxFieldSectionSize : Nat
  enableWebtransport : Bool
  enableConnect : Bool
  enableDatagram : Bool
  maxWebtransportSessions : Nat
  deriving DecidableEq, Repr

/-- Rust `Config::default()` (`server.rs` lines 547–558); `VarInt::MAX` is
2^62 − 1. -/
def Config.default : Config :=
  { sendGrease := true
    maxFieldSectionSize := 2 ^ 62 - 1
    enableWebtransport := false
    enableConnect := false
    enableDatagram := false
    maxWebtransportSessions := 0 }

/-- The qpack decoder error relevant to `server.rs` (`qpack::DecoderError`,
not under `src/`). -/
inductive DecoderError where
  | headerTooLong (actualSize : Nat)
  deriving DecidableEq, Repr

/-- Modelled from the spec: `qpack::decode_stateless` on a header block of
decoded size `decodedSize` under limit `maxSize`.  Spec §6 gives the codec
interface `decode(block, max_size) → fields | HeaderTooLong(actual_size)`
and §8 states that a block whose size exceeds `max_field_section_size`
always yields `HeaderTooLong(actual)`; the decoded fields are abstracted by
the size. -/
def decodeStateless (decodedSize maxSize : Nat) : Except DecoderError Nat :=
  if decodedSize > maxSize then .error (.headerTooLong decodedSize)
  else .ok decodedSize

/-- A frame written on a request stream's send side; a written header frame
records the response status and the encoded size of its header block. -/
inductive SentItem where
  | headerFrame (status : Nat) (encSize : Nat)
  | dataFrame (len : Nat)
  deriving DecidableEq, Repr

/-- The method `RequestStream::send_response` (`server.rs` lines 711–742).  The qpack
encoder (external) is abstracted by `encSize`, the `mem_size` it reports for
the response header block; `writeResult` is the outcome of the transport
write `stream::write` (external).  The function fails with
`Error::header_too_big(mem_size, max_mem_size)` before writing anything when
the encoded size exceeds the configured maximum; otherwise it performs the
write, returning the frames now on the stream. -/
def sendResponse (maxFieldSectionSize : Nat) (status : Nat) (encSize : Nat)
    (writeResult : Except Error Unit) (sent : List SentItem) :
    Except Error Unit × List SentItem :=
  if encSize > maxFieldSectionSize then
    (.error (.headerTooBig encSize maxFieldSectionSize), sent)
  else
    match writeResult with
    | .error e => (.error e, sent)
    | .ok () => (.ok (), sent ++ [.headerFrame status encSize])

/-- The HTTP status `REQUEST_HEADER_FIELDS_TOO_LARGE`. -/
def statusRequestHeaderFieldsTooLarge : Nat := 431

/-- The header-decode phase of `Connection::accept` (`server.rs` lines
261–309, restricted to the `HeaderTooLong` and `Ok` arms that the claims
address).  On `HeaderTooLong(cancel_size)` the code calls
`request_stream.send_response(431 …).await?` — note the `?`: a failure of
that attempt is returned — and only on success of the attempt returns
`Error::header_too_big(cancel_size, max_field_section_size)`.
`resp431EncSize` and `writeResult` parametrise the external encoder and
transport write inside that `send_response` call.  The second component is
the list of frames on the stream's send side after the phase. -/
def acceptDecodePhase (maxFieldSectionSize : Nat) (reqDecodedSize : Nat)
    (resp431EncSize : Nat) (writeResult : Except Error Unit)
    (sent : List SentItem) : Except Error Nat × List SentItem :=
  match decodeStateless reqDecodedSize maxFieldSectionSize with
  | .error (.headerTooLong cancelSize) =>
    match sendResponse maxFieldSectionSize statusRequestHeaderFieldsTooLarge
        resp431EncSize writeResult sent with
    | (.error e, sentNow) => (.error e, sentNow)
    | (.ok (), sentNow) =>
      (.error (.headerTooBig cancelSize maxFieldSectionSize), sentNow)
  | .ok decoded => (.ok decoded, sent)

/-- The mutable per-connection bookkeeping of `server::Connection`
(`server.rs` lines 92–111), restricted to the fields the claims are about,
plus two observables: `closedWith` records the code passed to
`inner.close` and `sentControl` the control frames sent to the peer. -/
structure ConnState where
  ongoingStreams : Finset StreamId
  sentClosing : Option StreamId
  recvClosing : Option PushId
  lastAcceptedStream : Option StreamId
  sendGreaseFrame : Bool
  maxFieldSectionSize : Nat
  closedWith : Option Code
  sentControl : List Frame
  deriving DecidableEq

/-- The builder method `Builder::build` (`server.rs` lines 637–654): the fresh connection has
no ongoing streams, no shutdown sent or received, and no stream accepted
yet. -/
def buildConn (config : Config) : ConnState :=
  { ongoingStreams := ∅
    sentClosing := none
    recvClosing := none
    lastAcceptedStream := none
    sendGreaseFrame := config.sendGrease
    maxFieldSectionSize := config.maxFieldSectionSize
    closedWith := none
    sentControl := [] }

/-- Modelled from the spec: `ConnectionInner::close(code, reason)` (from
`connection.rs`, not under `src/`).  Spec §7: a fatal connection error
carries a numeric code and a reason, triggers sending a close signal, and
further operations observe the connection as closed.  It returns the error
it was given, as the Rust method does. -/
def ConnState.close (st : ConnState) (code : Code) (reason : String) :
    ConnState × Error :=
  ({ st with closedWith := some code },
   .application code reason .connectionError)

/-- The boundary computation of `Connection::shutdown` (`server.rs` lines
350–353): the last accepted id plus `max_requests` when a stream was ever
accepted, `StreamId::FIRST_REQUEST` otherwise.  The specification (§4.1 and
its §8 scenario) describes the id addition as plain addition. -/
def shutdownBoundary (lastAccepted : Option StreamId) (maxRequests : Nat) :
    StreamId :=
  match lastAccepted with
  | some id => id + maxRequests
  | none => firstRequest

/-- Modelled from the spec: `ConnectionInner::shutdown(&mut sent_closing,
max_id)` (from `connection.rs`, not under `src/`).  Spec §4.1: it sends a
shutdown-boundary frame carrying `max_id`, after which the rejection rule
applies — so it records `max_id` in `sent_closing`.  `sendResult` is the
outcome of the transport send. -/
def innerShutdown (st : ConnState) (maxId : StreamId)
    (sendResult : Except Error Unit) : Except Error ConnState :=
  match sendResult with
  | .error e => .error e
  | .ok () =>
    .ok { st with
          sentClosing := some maxId
          sentControl := st.sentControl ++ [.goaway maxId] }

/-- The method `Connection::shutdown(max_requests)` (`server.rs` lines 349–356). -/
def ConnState.shutdown (st : ConnState) (maxRequests : Nat)
    (sendResult : Except Error Unit) : Except Error ConnState :=
  innerShutdown st (shutdownBoundary st.lastAcceptedStream maxRequests)
    sendResult

/-- A signalling action performed on a single stream (stop-sending on the
receive direction, reset on the send direction). -/
inductive StreamAction where
  | stopSending (code : Code)
  | reset (code : Code)
  deriving DecidableEq, Repr

/-- One turn of the stream-acceptance loop of
`Connection::poll_accept_request` (`server.rs` lines 387–404) on an
incoming bidirectional stream with id `id`: when a shutdown boundary
`sent_closing` is set and `id` exceeds it, the stream is stop-sent and
reset with `H3_REQUEST_REJECTED` on both directions and not surfaced;
otherwise `last_accepted_stream` and `ongoing_streams` are updated and the
stream is surfaced. -/
def pollAcceptStream (st : ConnState) (id : StreamId) :
    ConnState × Option StreamId × List StreamAction :=
  match st.sentClosing with
  | some maxId =>
    if id > maxId then
      (st, none,
       [.stopSending .h3RequestRejected, .reset .h3RequestRejected])
    else
      ({ st with
         lastAcceptedStream := some id
         ongoingStreams := insert id st.ongoingStreams },
       some id, [])
  | none =>
    ({ st with
       lastAcceptedStream := some id
       ongoingStreams := insert id st.ongoingStreams },
     some id, [])

/-- Iterated `pollAcceptStream` over a sequence of incoming stream ids,
keeping only the connection state. -/
def runAccept (st : ConnState) (ids : List StreamId) : ConnState :=
  ids.foldl (fun s id => (pollAcceptStream s id).1) st

/-- Modelled from the spec: `ConnectionInner::process_goaway(&mut
recv_closing, id)` (from `connection.rs`, not under `src/`).  Spec §4.1: a
peer shutdown-boundary frame records `recv_closing`; a boundary from a
later frame must not increase beyond a previous one, a violation being
treated as a connection error (the spec flags the exact handling as an open
question; the error code used here is the RFC's id error). -/
def processGoaway (recvClosing : Option PushId) (id : PushId) :
    Except Error (Option PushId) :=
  match recvClosing with
  | some prev =>
    if prev < id then
      .error (.application .h3IdError "goaway id cannot grow" .connectionError)
    else .ok (some id)
  | none => .ok (some id)

/-- One control-stream frame dispatch of `Connection::poll_control`
(`server.rs` lines 409–444): settings frames are informational only; a
GOAWAY frame goes through `process_goaway`; `MAX_PUSH_ID` and `CANCEL_PUSH`
are logged and ignored; every other frame type is a fatal
`H3_FRAME_UNEXPECTED` connection error. -/
def controlStep (recvClosing : Option PushId) (f : Frame) :
    Except Error (Option PushId) :=
  match f with
  | .settings _ => .ok recvClosing
  | .goaway id => processGoaway recvClosing id
  | .maxPushId _ => .ok recvClosing
  | .cancelPush _ => .ok recvClosing
  | _ =>
    .error (.application .h3FrameUnexpected
      "on server control stream" .connectionError)

/-- Result of polling the accepted stream for its first frame
(`future::poll_fn(|cx| stream.poll_next(cx)).await`, `server.rs` line
183): a frame, end of stream before any frame, or a read error. -/
inductive FramePoll where
  | frame (f : Frame)
  | finished
  | err (e : Error)
  deriving DecidableEq, Repr

/-- What the leading-frame phase of `accept` produces: the header block of
the request, a quiet end-of-input (`Ok(None)`), or a returned error. -/
inductive LeadingOutcome where
  | gotHeaders (decodedSize : Nat)
  | endOfInput
  | failed (e : Error)
  deriving DecidableEq, Repr

/-- The leading-frame phase of `Connection::accept` (`server.rs` lines
183–246).  Stream closed before any frame → `inner.close` with
`H3_REQUEST_INCOMPLETE` and that error is returned; a first frame that is
not a header block → `inner.close` with `H3_FRAME_UNEXPECTED`; a read
error is classified: `Closed` → quiet end of input, connection-level
application error → `inner.close` with its code, stream-level application
error → reset this stream with its code and return the error, anything
else → return the error.  The last component lists the actions taken on the
stream itself. -/
def acceptLeadingFrame (st : ConnState) (r : FramePoll) :
    ConnState × LeadingOutcome × List StreamAction :=
  match r with
  | .frame (.headers h) => (st, .gotHeaders h, [])
  | .finished =>
    let (st2, e) :=
      st.close .h3RequestIncomplete "request stream closed before headers"
    (st2, .failed e, [])
  | .frame _ =>
    let (st2, e) :=
      st.close .h3FrameUnexpected "first request frame is not headers"
    (st2, .failed e, [])
  | .err e =>
    match e with
    | .closed => (st, .endOfInput, [])
    | .application code reason .connectionError =>
      let (st2, e2) := st.close code reason
      (st2, .failed e2, [])
    | .application code reason .streamError =>
      (st, .failed (.application code reason .streamError), [.reset code])
    | other => (st, .failed other, [])

/-- The end-of-input path of `Connection::accept` (`server.rs` lines
159–164): when `poll_accept_request` resolves to `Ok(None)` — the transport
will deliver no more bidirectional streams and all ongoing requests have
completed — `accept` first runs `self.shutdown(0).await?` and only on
success returns `Ok(None)` (modelled as `.ok st` on the new state). -/
def acceptNoMoreStreams (st : ConnState) (sendResult : Except Error Unit) :
    Except Error ConnState :=
  match st.shutdown 0 sendResult with
  | .error e => .error e
  | .ok st2 => .ok st2

/-- Outcome of awaiting a poll-style function: either the future resolves
with a value, or no poll ever returns `Ready` and the await pends
forever. -/
inductive AwaitOutcome (α : Type) where
  | resolves (a : α)
  | pending
  deriving DecidableEq, Repr

/-- The `future::poll_fn(|cx| conn.poll_control(cx)).await` opening
`WebTransportSession::new` (`server.rs` line 846), as a function of the
complete sequence of frames the peer ever delivers on the control stream.
`poll_control` (`server.rs` lines 409–444) drains the available frames —
dispatching each through the logic embedded as `controlStep` — and then
returns `Poll::Pending` (line 443); its only `Poll::Ready` returns carry
errors (the `?` on line 410 and the `FRAME_UNEXPECTED` return on line
436).  Hence the await resolves exactly when some control frame produces
an error, and otherwise pends forever.  The result type still has the
`resolves (.ok ())` shape the Rust `Poll<Result<(), Error>>` has;
`awaitPollControl_never_ok` proves the code never produces it. -/
def awaitPollControl (rc : Option PushId) :
    List Frame → AwaitOutcome (Except Error Unit)
  | [] => .pending
  | f :: rest =>
    match controlStep rc f with
    | .error e => .resolves (.error e)
    | .ok rc2 => awaitPollControl rc2 rest

/-- Result of `WebTransportSession::new`: an established session, a
returned error, the `todo!()` marker that would end the function by
panicking, or a call that never completes because its opening await never
resolves. -/
inductive WtNewResult where
  | ok
  | err (e : Error)
  | panicked
  | neverCompletes
  deriving DecidableEq, Repr

/-- The function `WebTransportSession::new` (`server.rs` lines 845–888).
It first awaits `poll_control` (line 846, embedded as `awaitPollControl`
over `controlFrames`, starting from `recv_closing = rc`), propagating a
resolved error through `?`.  Only if that await resolved with `Ok` would
the body run: `peer` is the shared state's config — the settings advertised
by the client — and a peer lacking WebTransport support, then a peer
lacking datagram support, each close the connection with
`H3_SETTINGS_ERROR` (lines 854–866); local capability gaps are logged only
(lines 875–885); the function then reaches `todo!()` (line 887).  Since
the await never resolves with `Ok`, that body is dead code. -/
def webTransportSessionNew (peer _localCfg : Config) (rc : Option PushId)
    (controlFrames : List Frame) : WtNewResult :=
  match awaitPollControl rc controlFrames with
  | .pending => .neverCompletes
  | .resolves (.error e) => .err e
  | .resolves (.ok ()) =>
    if !peer.enableWebtransport then
      .err (.application .h3SettingsError
        "webtransport is not supported by client" .connectionError)
    else if !peer.enableDatagram then
      .err (.application .h3SettingsError
        "datagrams are not supported by client" .connectionError)
    else
      -- the three local checks (lines 875–885) only log warnings
      .panicked

/-- Recognizer for the fatal `SETTINGS_ERROR` result that claim C4
promises from `WebTransportSession::new`. -/
def WtNewResult.isSettingsError : WtNewResult → Bool
  | .err (.application .h3SettingsError _ .connectionError) => true
  | _ => false

/-- State of one request's completion bookkeeping: the number of live
handles sharing the `Arc<RequestEnd>` (`server.rs` lines 656–659, 665–668),
whether the connection's completion channel still has its receiver, and the
messages so far delivered into the channel. -/
structure NotifyState where
  handles : Nat
  chOpen : Bool
  msgs : List StreamId
  deriving DecidableEq, Repr

/-- Events in the life of a `RequestStream` relevant to completion
notification: the graceful and abrupt exit operations, and the release of
one handle (dropping it, or dropping one half after `split`). -/
inductive StreamEvent where
  | finish
  | sendTrailers
  | stopStream
  | dropHandle
  deriving DecidableEq, Repr

/-- One event.  `finish`, `send_trailers` and `stop_stream` do not touch
the completion bookkeeping (`server.rs` lines 745–772 delegate to the inner
stream only).  Releasing a handle drops one `Arc<RequestEnd>` reference;
when the last reference goes, `Drop for RequestEnd` (`server.rs` lines
810–819) sends the stream id on the completion channel — a send on a
closed channel fails and is only logged. -/
def notifyStep (id : StreamId) (s : NotifyState) (e : StreamEvent) :
    NotifyState :=
  match e with
  | .dropHandle =>
    if s.handles = 1 then
      { s with
        handles := 0
        msgs := if s.chOpen then s.msgs ++ [id] else s.msgs }
    else { s with handles := s.handles - 1 }
  | _ => s

/-- Iterated `notifyStep` over an event sequence. -/
def runNotify (id : StreamId) (s : NotifyState) (evs : List StreamEvent) :
    NotifyState :=
  evs.foldl (notifyStep id) s

/-- The method `RequestStream::split` (`server.rs` lines 790–808): the send half gets
a clone of the `Arc<RequestEnd>` and the receive half the original, so the
number of handles sharing the completion obligation goes from one to
two. -/
def splitHandles (s : NotifyState) : NotifyState :=
  { s with handles := s.handles + 1 }

/-! ## Helper lemmas -/

lemma pollAcceptStream_last (st : ConnState) (id : StreamId) :
    (pollAcceptStream st id).1.lastAcceptedStream = st.lastAcceptedStream ∨
    (pollAcceptStream st id).1.lastAcceptedStream = some id := by
  unfold pollAcceptStream
  rcases h : st.sentClosing with _ | m
  · right; rfl
  · by_cases hid : id > m
    · left; simp [hid]
    · right; simp [hid]

lemma runAccept_nil (st : ConnState) : runAccept st [] = st := rfl

lemma runAccept_cons (st : ConnState) (id : StreamId) (t : List StreamId) :
    runAccept st (id :: t) = runAccept (pollAcceptStream st id).1 t := rfl

lemma runAccept_append (st : ConnState) (l1 l2 : List StreamId) :
    runAccept st (l1 ++ l2) = runAccept (runAccept st l1) l2 := by
  simp [runAccept, List.foldl_append]

lemma runAccept_last_mem (st : ConnState) (l : List StreamId) :
    (runAccept st l).lastAcceptedStream = st.lastAcceptedStream ∨
    ∃ i ∈ l, (runAccept st l).lastAcceptedStream = some i := by
  induction l generalizing st with
  | nil => left; rfl
  | cons id t ih =>
    rw [runAccept_cons]
    rcases ih (pollAcceptStream st id).1 with h | ⟨i, hi, h⟩
    · rcases pollAcceptStream_last st id with h2 | h2
      · left; rw [h, h2]
      · right; exact ⟨id, List.mem_cons_self id t, by rw [h, h2]⟩
    · right; exact ⟨i, List.mem_cons_of_mem id hi, h⟩

lemma runAccept_last_lb (st : ConnState) (l : List StreamId) (a : StreamId)
    (hst : st.lastAcceptedStream = some a)
    (hsort : l.Pairwise (· ≤ ·)) (hl : ∀ i ∈ l, a ≤ i) :
    ∀ b, (runAccept st l).lastAcceptedStream = some b → a ≤ b := by
  induction l generalizing st a with
  | nil =>
    intro b hb
    rw [runAccept_nil, hst] at hb
    exact le_of_eq (Option.some_injective _ hb)
  | cons id t ih =>
    intro b hb
    rw [runAccept_cons] at hb
    rw [List.pairwise_cons] at hsort
    rcases pollAcceptStream_last st id with h2 | h2
    · exact ih (pollAcceptStream st id).1 a (h2.trans hst) hsort.2
        (fun i hi => hl i (List.mem_cons_of_mem id hi)) b hb
    · have hid : a ≤ id := hl id (List.mem_cons_self id t)
      exact hid.trans
        (ih (pollAcceptStream st id).1 id h2 hsort.2 hsort.1 b hb)

lemma runNotify_nil (id : StreamId) (s : NotifyState) :
    runNotify id s [] = s := rfl

lemma runNotify_cons (id : StreamId) (s : NotifyState) (e : StreamEvent)
    (t : List StreamEvent) :
    runNotify id s (e :: t) = runNotify id (notifyStep id s e) t := rfl

lemma notifyStep_ne_drop (id : StreamId) (s : NotifyState) (e : StreamEvent)
    (h : e ≠ .dropHandle) : notifyStep id s e = s := by
  cases e <;> first | rfl | exact absurd rfl h

lemma runNotify_no_drop (id : StreamId) (s : NotifyState)
    (evs : List StreamEvent) (h : evs.count .dropHandle = 0) :
    runNotify id s evs = s := by
  induction evs generalizing s with
  | nil => rfl
  | cons e t ih =>
    by_cases he : e = .dropHandle
    · subst he; rw [List.count_cons_self] at h; omega
    · rw [runNotify_cons, notifyStep_ne_drop id s e he]
      exact ih s (by rwa [List.count_cons_of_ne (fun hc => he hc.symm)] at h)

lemma runNotify_drops_lt (id : StreamId) (evs : List StreamEvent) :
    ∀ (k : Nat) (m : List StreamId), evs.count .dropHandle < k →
    runNotify id ⟨k, true, m⟩ evs = ⟨k - evs.count .dropHandle, true, m⟩ := by
  induction evs with
  | nil => intro k m _; rfl
  | cons e t ih =>
    intro k m h
    rw [runNotify_cons]
    by_cases he : e = .dropHandle
    · subst he
      rw [List.count_cons_self] at h ⊢
      have hk1 : k ≠ 1 := by omega
      have hstep : notifyStep id ⟨k, true, m⟩ .dropHandle = ⟨k - 1, true, m⟩ := by
        simp [notifyStep, hk1]
      rw [hstep, ih (k - 1) m (by omega)]
      congr 1
      omega
    · rw [notifyStep_ne_drop id _ e he,
        List.count_cons_of_ne (fun hc => he hc.symm)] at *
      exact ih k m h

lemma runNotify_drops_eq (id : StreamId) (evs : List StreamEvent) :
    ∀ (k : Nat) (m : List StreamId), 1 ≤ k → evs.count .dropHandle = k →
    runNotify id ⟨k, true, m⟩ evs = ⟨0, true, m ++ [id]⟩ := by
  induction evs with
  | nil => intro k m h1 h2; simp at h2; omega
  | cons e t ih =>
    intro k m h1 h2
    rw [runNotify_cons]
    by_cases he : e = .dropHandle
    · subst he
      rw [List.count_cons_self] at h2
      by_cases hk : k = 1
      · subst hk
        have ht : t.count .dropHandle = 0 := by omega
        have hstep : notifyStep id ⟨1, true, m⟩ .dropHandle
            = ⟨0, true, m ++ [id]⟩ := by
          simp [notifyStep]
        rw [hstep, runNotify_no_drop id _ t ht]
      · have hstep : notifyStep id ⟨k, true, m⟩ .dropHandle
            = ⟨k - 1, true, m⟩ := by
          simp [notifyStep, hk]
        rw [hstep]
        exact ih (k - 1) m (by omega) (by omega)
    · rw [notifyStep_ne_drop id _ e he]
      rw [List.count_cons_of_ne (fun hc => he hc.symm)] at h2
      exact ih k m h1 h2

lemma controlStep_error_code (rc : Option PushId) (f : Frame) (e : Error)
    (h : controlStep rc f = .error e) :
    ∃ why, e = .application .h3FrameUnexpected why .connectionError ∨
      e = .application .h3IdError why .connectionError := by
  cases f with
  | settings kvs => simp [controlStep] at h
  | maxPushId id => simp [controlStep] at h
  | cancelPush id => simp [controlStep] at h
  | goaway id =>
    rcases hrc : rc with _ | prev
    · simp [controlStep, processGoaway, hrc] at h
    · subst hrc
      rw [show controlStep (some prev) (.goaway id)
          = processGoaway (some prev) id from rfl] at h
      simp only [processGoaway] at h
      split_ifs at h with hlt
      injection h with h2
      exact ⟨"goaway id cannot grow", Or.inr h2.symm⟩
  | data len =>
    injection h with h2
    exact ⟨"on server control stream", Or.inl h2.symm⟩
  | headers d =>
    injection h with h2
    exact ⟨"on server control stream", Or.inl h2.symm⟩
  | pushPromise =>
    injection h with h2
    exact ⟨"on server control stream", Or.inl h2.symm⟩
  | grease =>
    injection h with h2
    exact ⟨"on server control stream", Or.inl h2.symm⟩

lemma awaitPollControl_never_ok (rc : Option PushId) (frames : List Frame) :
    awaitPollControl rc frames ≠ .resolves (.ok ()) := by
  induction frames generalizing rc with
  | nil => simp [awaitPollControl]
  | cons f rest ih =>
    cases hc : controlStep rc f with
    | error e => simp [awaitPollControl, hc]
    | ok rc2 =>
      simp only [awaitPollControl, hc]
      exact ih rc2

lemma awaitPollControl_error_code (rc : Option PushId) (frames : List Frame)
    (e : Error) (h : awaitPollControl rc frames = .resolves (.error e)) :
    ∃ why, e = .application .h3FrameUnexpected why .connectionError ∨
      e = .application .h3IdError why .connectionError := by
  induction frames generalizing rc with
  | nil => simp [awaitPollControl] at h
  | cons f rest ih =>
    cases hc : controlStep rc f with
    | error e2 =>
      have heq : awaitPollControl rc (f :: rest) = .resolves (.error e2) := by
        simp [awaitPollControl, hc]
      rw [heq] at h
      injection h with h2
      injection h2 with h3
      exact h3 ▸ controlStep_error_code rc f e2 hc
    | ok rc2 =>
      have heq : awaitPollControl rc (f :: rest) = awaitPollControl rc2 rest := by
        simp [awaitPollControl, hc]
      rw [heq] at h
      exact ih rc2 h

/-! ## Claim theorems -/

/-- C1, counterexample: with `max_field_section_size = 1000` and a request
header block of decoded size 1200, when the transport write inside the 431
attempt fails (here: with the quiet `Closed` error), `accept`'s decode
phase returns that failure — not the header-too-big error carrying 1200 and
1000 that the claim promises.  The 431 attempt is not best effort: its
failure is propagated by the `?` at `server.rs` line 274. -/
theorem c1_counterexample :
    acceptDecodePhase 1000 1200 50 (.error .closed) []
      = (.error .closed, []) ∧
    Error.closed ≠ .headerTooBig 1200 1000 := by
  exact ⟨rfl, by decide⟩

/-- C1, amended: for a request header block whose decoded size exceeds the
configured `max_field_section_size`, `accept` first attempts to send the
431 response on the stream; a failure of that attempt is propagated as the
returned error, and only when the attempt succeeds does `accept` return the
recoverable header-too-big error carrying the actual decoded size and the
configured maximum (the actual exceeding the configured), with the 431
header frame then on the stream. -/
theorem c1_accept_header_too_long (maxFS req enc : Nat)
    (w : Except Error Unit) (sent : List SentItem) (hbig : maxFS < req) :
    (∀ e sentNow,
      sendResponse maxFS statusRequestHeaderFieldsTooLarge enc w sent
        = (.error e, sentNow) →
      acceptDecodePhase maxFS req enc w sent = (.error e, sentNow)) ∧
    (∀ sentNow,
      sendResponse maxFS statusRequestHeaderFieldsTooLarge enc w sent
        = (.ok (), sentNow) →
      acceptDecodePhase maxFS req enc w sent
        = (.error (.headerTooBig req maxFS), sentNow) ∧
      sentNow
        = sent ++ [.headerFrame statusRequestHeaderFieldsTooLarge enc]) := by
  constructor
  · intro e sentNow hsend
    simp [acceptDecodePhase, decodeStateless, hbig, hsend]
  · intro sentNow hsend
    refine ⟨by simp [acceptDecodePhase, decodeStateless, hbig, hsend], ?_⟩
    by_cases henc : maxFS < enc
    · simp [sendResponse, henc] at hsend
    · rcases w with e | u
      · simp [sendResponse, henc] at hsend
      · cases u
        simp [sendResponse, henc] at hsend
        exact hsend.symm

/-- C1, witness: the spec scenario (`max = 1000`, decoded size 1200) with a
successful 431 attempt of encoded size 50. -/
theorem c1_witness :
    acceptDecodePhase 1000 1200 50 (.ok ()) []
      = (.error (.headerTooBig 1200 1000),
         [.headerFrame statusRequestHeaderFieldsTooLarge 50]) :=
  ((c1_accept_header_too_long 1000 1200 50 (.ok ()) [] (by omega)).2
    [.headerFrame statusRequestHeaderFieldsTooLarge 50] rfl).1

/-- C7: `send_response` fails without writing anything whenever the encoded
header block exceeds the configured `max_field_section_size`, the error
carrying the actual encoded size and the configured maximum; when the size
does not exceed the maximum (and the transport write goes through), the
header frame is written to the stream. -/
theorem c7_send_response_size_check (maxFS status enc : Nat)
    (w : Except Error Unit) (sent : List SentItem) :
    (maxFS < enc →
      sendResponse maxFS status enc w sent
        = (.error (.headerTooBig enc maxFS), sent)) ∧
    (enc ≤ maxFS → w = .ok () →
      sendResponse maxFS status enc w sent
        = (.ok (), sent ++ [.headerFrame status enc])) := by
  constructor
  · intro h; simp [sendResponse, h]
  · intro h hw; subst hw; simp [sendResponse, Nat.not_lt.mpr h]

/-- C7, witness: a 1200-byte block against a 1000 limit fails carrying both
sizes; a 50-byte block is written. -/
theorem c7_witness :
    sendResponse 1000 200 1200 (.ok ()) []
      = (.error (.headerTooBig 1200 1000), []) ∧
    sendResponse 1000 200 50 (.ok ()) []
      = (.ok (), [.headerFrame 200 50]) :=
  ⟨(c7_send_response_size_check 1000 200 1200 (.ok ()) []).1 (by omega),
   (c7_send_response_size_check 1000 200 50 (.ok ()) []).2 (by omega) rfl⟩

/-- C2: `shutdown(max_in_flight)` records the boundary `last accepted id +
max_in_flight` (or the first valid request-stream id when nothing was
accepted); afterwards a stream whose id strictly exceeds the boundary is
stop-sent and reset with the request-rejected code on both directions and
never surfaced, while a stream whose id equals the boundary is accepted. -/
theorem c2_shutdown_boundary_rejection (st : ConnState) (k : Nat)
    (sendRes : Except Error Unit) :
    (∀ st2, st.shutdown k sendRes = .ok st2 →
      st2.sentClosing
        = some (match st.lastAcceptedStream with
                | some s => s + k
                | none => firstRequest)) ∧
    (∀ m id, st.sentClosing = some m → m < id →
      pollAcceptStream st id
        = (st, none,
           [.stopSending .h3RequestRejected, .reset .h3RequestRejected])) ∧
    (∀ m, st.sentClosing = some m →
      pollAcceptStream st m
        = ({ st with
             lastAcceptedStream := some m
             ongoingStreams := insert m st.ongoingStreams },
           some m, [])) := by
  refine ⟨?_, ?_, ?_⟩
  · intro st2 h
    rcases sendRes with e | u
    · simp [ConnState.shutdown, innerShutdown] at h
    · cases u
      simp [ConnState.shutdown, innerShutdown] at h
      subst h
      rcases hl : st.lastAcceptedStream with _ | s <;>
        simp [shutdownBoundary, hl]
  · intro m id hm hlt
    unfold pollAcceptStream
    rw [hm]
    simp [hlt]
  · intro m hm
    unfold pollAcceptStream
    rw [hm]
    simp

/-- C2, witness: the spec scenario — last accepted id 8, `shutdown(4)`
gives boundary 12; a later stream with id 16 is rejected on both
directions and not surfaced, one with id 12 is accepted. -/
theorem c2_witness :
    pollAcceptStream { buildConn Config.default with
        lastAcceptedStream := some 8
        sentClosing := some 12 } 16
      = ({ buildConn Config.default with
           lastAcceptedStream := some 8
           sentClosing := some 12 }, none,
         [.stopSending .h3RequestRejected, .reset .h3RequestRejected]) ∧
    (pollAcceptStream { buildConn Config.default with
        lastAcceptedStream := some 8
        sentClosing := some 12 } 12).2.1
      = some 12 ∧
    ({ buildConn Config.default with
       lastAcceptedStream := some 8
       sentClosing := some 12
       sentControl := [Frame.goaway 12] }
       : ConnState).sentClosing = some 12 := by
  refine ⟨?_, ?_, ?_⟩
  · exact (c2_shutdown_boundary_rejection _ 4 (.ok ())).2.1 12 16 rfl
      (by decide)
  · rw [(c2_shutdown_boundary_rejection _ 4 (.ok ())).2.2 12 rfl]
  · exact (c2_shutdown_boundary_rejection
      { buildConn Config.default with lastAcceptedStream := some 8 }
      4 (.ok ())).1 _ rfl

/-- C3: with the completion channel open, a request stream with one live
handle emits exactly one completion notification carrying its stream id,
on whatever event sequence ends it (finish, trailers, abrupt stop, or a
bare drop); after `split` the two halves together still emit exactly one
notification, and nothing is emitted before the last half is released. -/
theorem c3_completion_exactly_once (id : StreamId)
    (evs evs2 : List StreamEvent)
    (h1 : evs.count .dropHandle = 1) (h2 : evs2.count .dropHandle = 2) :
    runNotify id ⟨1, true, []⟩ evs = ⟨0, true, [id]⟩ ∧
    runNotify id (splitHandles ⟨1, true, []⟩) evs2 = ⟨0, true, [id]⟩ ∧
    (∀ pre : List StreamEvent, pre.count .dropHandle ≤ 1 →
      (runNotify id (splitHandles ⟨1, true, []⟩) pre).msgs = []) := by
  refine ⟨?_, ?_, ?_⟩
  · exact runNotify_drops_eq id evs 1 [] (by omega) h1
  · exact runNotify_drops_eq id evs2 2 [] (by omega) h2
  · intro pre hpre
    show (runNotify id ⟨2, true, []⟩ pre).msgs = []
    rw [runNotify_drops_lt id pre 2 [] (by omega)]

/-- C3, witness: one handle dropped after `finish`; and a split pair where
the first drop emits nothing and the second completes the notification. -/
theorem c3_witness :
    runNotify 7 ⟨1, true, []⟩ [.finish, .dropHandle] = ⟨0, true, [7]⟩ ∧
    runNotify 7 (splitHandles ⟨1, true, []⟩)
      [.dropHandle, .stopStream, .dropHandle] = ⟨0, true, [7]⟩ ∧
    (runNotify 7 (splitHandles ⟨1, true, []⟩) [.dropHandle]).msgs = [] := by
  have h := c3_completion_exactly_once 7 [.finish, .dropHandle]
    [.dropHandle, .stopStream, .dropHandle] (by decide) (by decide)
  exact ⟨h.1, h.2.1, h.2.2 [.dropHandle] (by decide)⟩

/-- C4, as a code bug: `WebTransportSession::new` never returns the
promised `SETTINGS_ERROR` — for any peer and local configuration, any
starting `recv_closing` and any control-stream content — because its
opening await (`server.rs` line 846) resolves only through control-stream
errors, whose codes are `FRAME_UNEXPECTED` or the GOAWAY id error, never
`SETTINGS_ERROR`; the settings checks at lines 854–866 are dead code.  At
the failing input — a default (webtransport-less) peer and an error-free
control stream — the call simply never completes. -/
theorem c4_settings_error_never_returned (peer localCfg : Config)
    (rc : Option PushId) (frames : List Frame) :
    (webTransportSessionNew peer localCfg rc frames).isSettingsError
      = false ∧
    webTransportSessionNew Config.default Config.default none
      [.settings [(1, 1)]] = .neverCompletes := by
  constructor
  · cases hav : awaitPollControl rc frames with
    | pending =>
      simp [webTransportSessionNew, hav, WtNewResult.isSettingsError]
    | resolves r =>
      cases r with
      | ok u =>
        cases u
        exact absurd hav (awaitPollControl_never_ok rc frames)
      | error e =>
        rcases awaitPollControl_error_code rc frames e hav with
          ⟨why, hc | hc⟩ <;>
          subst hc <;>
          simp [webTransportSessionNew, hav, WtNewResult.isSettingsError]
  · rfl

/-- C5: on the control stream, a settings frame is informational only; a
GOAWAY frame whose boundary does not exceed a previously recorded one
records `recv_closing`; `MAX_PUSH_ID` and `CANCEL_PUSH` are accepted with
no error and no state change; every other frame type is a fatal
`FRAME_UNEXPECTED` connection error. -/
theorem c5_control_frame_dispatch (rc : Option PushId) :
    (∀ kvs, controlStep rc (.settings kvs) = .ok rc) ∧
    (∀ id, (∀ prev, rc = some prev → id ≤ prev) →
      controlStep rc (.goaway id) = .ok (some id)) ∧
    (∀ id, controlStep rc (.maxPushId id) = .ok rc) ∧
    (∀ id, controlStep rc (.cancelPush id) = .ok rc) ∧
    (∀ f, (∀ kvs, f ≠ .settings kvs) → (∀ id, f ≠ .goaway id) →
      (∀ id, f ≠ .maxPushId id) → (∀ id, f ≠ .cancelPush id) →
      controlStep rc f
        = .error (.application .h3FrameUnexpected
            "on server control stream" .connectionError)) := by
  refine ⟨fun kvs => rfl, ?_, fun id => rfl, fun id => rfl, ?_⟩
  · intro id h
    rcases hrc : rc with _ | prev
    · rfl
    · simp [controlStep, processGoaway, Nat.not_lt.mpr (h prev hrc)]
  · intro f h1 h2 h3 h4
    cases f with
    | data len => rfl
    | headers d => rfl
    | cancelPush id => exact absurd rfl (h4 id)
    | settings kvs => exact absurd rfl (h1 kvs)
    | pushPromise => rfl
    | goaway id => exact absurd rfl (h2 id)
    | maxPushId id => exact absurd rfl (h3 id)
    | grease => rfl

/-- C5, witness: a settings frame, a non-increasing GOAWAY, the two push
frames, and a data frame on the control stream. -/
theorem c5_witness :
    controlStep none (.settings [(1, 1)]) = .ok none ∧
    controlStep (some 5) (.goaway 3) = .ok (some 3) ∧
    controlStep (some 5) (.maxPushId 9) = .ok (some 5) ∧
    controlStep (some 5) (.cancelPush 9) = .ok (some 5) ∧
    controlStep (some 5) (.data 0)
      = .error (.application .h3FrameUnexpected
          "on server control stream" .connectionError) := by
  refine ⟨(c5_control_frame_dispatch none).1 _, ?_,
    (c5_control_frame_dispatch (some 5)).2.2.1 9,
    (c5_control_frame_dispatch (some 5)).2.2.2.1 9, ?_⟩
  · exact (c5_control_frame_dispatch (some 5)).2.1 3
      (fun prev h => by injection h with h2; subst h2; decide)
  · exact (c5_control_frame_dispatch (some 5)).2.2.2.2 (.data 0)
      nofun nofun nofun nofun

/-- C6: if the accepted request stream closes before any frame arrives,
`accept` closes the connection with `REQUEST_INCOMPLETE` and returns that
fatal error; if the first frame read is anything other than a header
block, `accept` closes the connection with `FRAME_UNEXPECTED` and returns
that fatal error. -/
theorem c6_leading_frame_errors (st : ConnState) :
    (acceptLeadingFrame st .finished
      = ({ st with closedWith := some .h3RequestIncomplete },
         .failed (.application .h3RequestIncomplete
           "request stream closed before headers" .connectionError), [])) ∧
    (∀ f, (∀ d, f ≠ .headers d) →
      acceptLeadingFrame st (.frame f)
        = ({ st with closedWith := some .h3FrameUnexpected },
           .failed (.application .h3FrameUnexpected
             "first request frame is not headers" .connectionError), [])) := by
  constructor
  · rfl
  · intro f h
    cases f with
    | data len => rfl
    | headers d => exact absurd rfl (h d)
    | cancelPush id => rfl
    | settings kvs => rfl
    | pushPromise => rfl
    | goaway id => rfl
    | maxPushId id => rfl
    | grease => rfl

/-- C6, witness: a body-data frame arriving first on a fresh connection. -/
theorem c6_witness :
    acceptLeadingFrame (buildConn Config.default) (.frame (.data 0))
      = ({ buildConn Config.default with
           closedWith := some .h3FrameUnexpected },
         .failed (.application .h3FrameUnexpected
           "first request frame is not headers" .connectionError), []) :=
  (c6_leading_frame_errors (buildConn Config.default)).2 (.data 0) nofun

/-- C8: along any run of the acceptance loop fed by the transport's
monotonically increasing stream ids, `last_accepted_stream` is
monotonically non-decreasing: a value recorded after a prefix of the run
never exceeds the value recorded after the full run. -/
theorem c8_last_accepted_monotone (st : ConnState)
    (pre post : List StreamId)
    (hinit : st.lastAcceptedStream = none)
    (hsort : (pre ++ post).Pairwise (· ≤ ·)) :
    ∀ a b, (runAccept st pre).lastAcceptedStream = some a →
      (runAccept st (pre ++ post)).lastAcceptedStream = some b → a ≤ b := by
  intro a b ha hb
  rw [runAccept_append] at hb
  rw [List.pairwise_append] at hsort
  have hamem : a ∈ pre := by
    rcases runAccept_last_mem st pre with h | ⟨i, hi, h⟩
    · rw [h, hinit] at ha; cases ha
    · rw [h] at ha
      cases ha
      exact hi
  exact runAccept_last_lb (runAccept st pre) post a ha hsort.2.1
    (fun i hi => hsort.2.2 a hamem i hi) b hb

/-- C8, witness: ids 4 then 8 on a fresh connection. -/
theorem c8_witness :
    (runAccept (buildConn Config.default) [4]).lastAcceptedStream
      = some 4 ∧
    (runAccept (buildConn Config.default)
      ([4] ++ [8])).lastAcceptedStream = some 8 ∧
    (4 : StreamId) ≤ 8 := by
  refine ⟨rfl, rfl, ?_⟩
  exact c8_last_accepted_monotone (buildConn Config.default) [4] [8]
    rfl (by decide) 4 8 rfl rfl

/-- C9, counterexample: a peer advertising both WebTransport and datagram
support, with an error-free control stream (a single settings frame): the
call never completes, so it does not reach the unimplemented marker and
panic as the claim states. -/
theorem c9_counterexample :
    webTransportSessionNew
      { Config.default with
        enableWebtransport := true
        enableDatagram := true } Config.default none [.settings []]
      = .neverCompletes ∧
    WtNewResult.neverCompletes ≠ .panicked := by
  exact ⟨rfl, by decide⟩

/-- C9, amended: `WebTransportSession::new` never returns an established
session, but not by panicking: its opening await on `poll_control`
resolves only when the control stream produces an error, which the `?`
propagates as the returned error; when the control stream stays
error-free the call never completes, so the `todo!()` marker at
`server.rs` line 887 is never reached for any configuration. -/
theorem c9_webtransport_new_never_ok (peer localCfg : Config)
    (rc : Option PushId) (frames : List Frame) :
    webTransportSessionNew peer localCfg rc frames ≠ .ok ∧
    webTransportSessionNew peer localCfg rc frames ≠ .panicked ∧
    (awaitPollControl rc frames = .pending →
      webTransportSessionNew peer localCfg rc frames = .neverCompletes) ∧
    (∀ e, awaitPollControl rc frames = .resolves (.error e) →
      webTransportSessionNew peer localCfg rc frames = .err e) := by
  have hno := awaitPollControl_never_ok rc frames
  refine ⟨?_, ?_, ?_, ?_⟩
  · cases hav : awaitPollControl rc frames with
    | pending => simp [webTransportSessionNew, hav]
    | resolves r =>
      cases r with
      | error e => simp [webTransportSessionNew, hav]
      | ok u => cases u; exact absurd hav hno
  · cases hav : awaitPollControl rc frames with
    | pending => simp [webTransportSessionNew, hav]
    | resolves r =>
      cases r with
      | error e => simp [webTransportSessionNew, hav]
      | ok u => cases u; exact absurd hav hno
  · intro h; simp [webTransportSessionNew, h]
  · intro e he; simp [webTransportSessionNew, he]

/-- C9, witness: the never-completing case with a fully enabled peer and
an error-free control stream, and a control-stream error being
propagated. -/
theorem c9_witness :
    webTransportSessionNew
      { Config.default with
        enableWebtransport := true
        enableDatagram := true } Config.default none [.settings []]
      = .neverCompletes ∧
    webTransportSessionNew Config.default Config.default none [.data 0]
      = .err (.application .h3FrameUnexpected
          "on server control stream" .connectionError) :=
  ⟨(c9_webtransport_new_never_ok
      { Config.default with
        enableWebtransport := true
        enableDatagram := true } Config.default none
      [.settings []]).2.2.1 rfl,
   (c9_webtransport_new_never_ok Config.default Config.default none
      [.data 0]).2.2.2 _ rfl⟩

/-- C10: before `accept` returns end of input it runs `shutdown(0)`,
sending a GOAWAY carrying the last accepted stream id (or the first valid
request-stream id if none was accepted); only if that send succeeds does
the end-of-input result come back, a send failure being returned instead. -/
theorem c10_goaway_before_end_of_input (st : ConnState)
    (sendRes : Except Error Unit) :
    (∀ e, sendRes = .error e →
      acceptNoMoreStreams st sendRes = .error e) ∧
    (∀ s, sendRes = .ok () → st.lastAcceptedStream = some s →
      acceptNoMoreStreams st sendRes
        = .ok { st with
                sentClosing := some s
                sentControl := st.sentControl ++ [.goaway s] }) ∧
    (sendRes = .ok () → st.lastAcceptedStream = none →
      acceptNoMoreStreams st sendRes
        = .ok { st with
                sentClosing := some firstRequest
                sentControl := st.sentControl ++ [.goaway firstRequest] }) := by
  refine ⟨?_, ?_, ?_⟩
  · intro e h; subst h; rfl
  · intro s h hl; subst h
    simp [acceptNoMoreStreams, ConnState.shutdown, innerShutdown,
      shutdownBoundary, hl]
  · intro h hl; subst h
    simp [acceptNoMoreStreams, ConnState.shutdown, innerShutdown,
      shutdownBoundary, hl]

/-- C10, witness: end of input with last accepted id 8 sends `GOAWAY(8)`
and only then reports end of input. -/
theorem c10_witness :
    acceptNoMoreStreams
      { buildConn Config.default with lastAcceptedStream := some 8 }
      (.ok ())
      = .ok { buildConn Config.default with
              lastAcceptedStream := some 8
              sentClosing := some 8
              sentControl := [Frame.goaway 8] } :=
  (c10_goaway_before_end_of_input
    { buildConn Config.default with lastAcceptedStream := some 8 }
    (.ok ())).2.1 8 rfl rfl

end H3
